import Mathlib

/-!
# Shallow embedding of the python-datamodel construction/validation engine

This development embeds the model-construction pipeline of
`datamodel/base.py` and `datamodel/abstract.py`:

* Python runtime values are modelled by the inductive `Value`;
* type annotations (builtin scalar types, typing-module generics,
  builtin parameterized `list` generics, record/dataclass types, enums)
  are modelled by `FType`;
* Python exceptions are modelled by `Exc`, with the f-string messages the
  code builds kept structural in `ErrMsg` so that a theorem can speak about
  which names an error message interpolates;
* the external collaborators of the core (the type converter `parse_type`,
  the field-level `validator`, zero-argument calls of callables, and
  nested-record constructors) are parameters bundled in the `Env` structure,
  exactly as the spec lists them as out-of-scope interfaces.

State is passed explicitly: a record instance is an `Instance` (instance
attribute storage plus the class-level field registry it shares), and every
method that in Python mutates `self` here returns `Except Exc Instance`.
-/

set_option autoImplicit false

namespace DataModel

/-- Type annotations as the engine inspects them: builtin scalar types,
typing-module generics (with their `_name`, split into the case where
`__args__[0]` exists and the case where accessing it raises
`AttributeError`), builtin parameterized `list[T]` generics, record
(dataclass/ModelMeta) types and enumeration types. -/
inductive FType where
  | prim (tname : String)
  | typingGen (gname : Option String)
  | typingGen1 (gname : Option String) (arg0 : FType)
  | listOf (elem : FType)
  | record (rname : String)
  | enumType (ename : String) (values : List String)
deriving DecidableEq, Repr

/-- Python runtime values in the universe the engine manipulates.
`vMissing` is the dataclasses `MISSING` sentinel (an instance of
`_MISSING_TYPE`); `vCallable` is a genuine function object (with its
`__module__`); `vRecord` is a constructed record instance; `vType` is a
bare type object. -/
inductive Value where
  | vNone
  | vMissing
  | vBool (b : Bool)
  | vInt (n : Int)
  | vStr (s : String)
  | vList (xs : List Value)
  | vDict (entries : List (String × Value))
  | vCallable (fid : Nat) (mod : String)
  | vRecord (rname : String) (rfields : List (String × Value))
  | vType (t : FType)

/-- The exception messages the engine formats, kept structural: each
constructor records exactly the data the corresponding f-string in the
source interpolates. `raw` carries messages originating in external
collaborators. -/
inductive ErrMsg where
  | raw (s : String)
  | wrongType (key : String) (fty : FType) (inner : ErrMsg)
  | missingPrimary (model fieldName : String)
  | missingRequired (model fieldName : String)
  | cannotNull (model fieldName : String)
  | frozenAttr (attr model : String)
  | strictNewField (fieldName : String)
  | modelErrors (model : String)
deriving DecidableEq, Repr

/-- Python exceptions raised by the engine or its collaborators.
`validationError` carries the aggregated per-field error payload. -/
inductive Exc where
  | typeError (msg : ErrMsg)
  | valueError (msg : ErrMsg)
  | attributeError (msg : ErrMsg)
  | runtimeError (msg : ErrMsg)
  | validationError (msg : ErrMsg) (payload : List (String × String))
deriving DecidableEq, Repr

/-- Association-list lookup, the embedding of Python dict indexing. -/
def lookupS {α : Type} : List (String × α) → String → Option α
  | [], _ => none
  | (k, v) :: t, n => if k = n then some v else lookupS t n

/-- Association-list update, the embedding of Python dict assignment:
updates in place when the key is present (preserving insertion order),
appends otherwise. -/
def updList {α : Type} : List (String × α) → String → α → List (String × α)
  | [], n, v => [(n, v)]
  | (k, w) :: t, n, v => if k = n then (n, v) :: t else (k, w) :: updList t n v

/-- The open metadata mapping of a field descriptor.  Keys the code reads
with `metadata["k"]` (raising `KeyError` when absent) are `Option`s; keys
read with `metadata.get("k", d)` carry their default through `Option`/`getD`.
`dbDefault` models mere presence of the `db_default` key. -/
structure Metadata where
  required : Option Bool := none
  primary : Option Bool := none
  nullable : Option Bool := none
  dbDefault : Bool := false
  encoder : Option String := none
  min : Option Int := none
  max : Option Int := none
  secret : Option Bool := none
  label : Option String := none
  pattern : Option String := none
  readonly : Bool := false
  description : Option String := none
  format : Option String := none
  fk : Option String := none

/-- A field descriptor: name, declared type, static default (`vMissing`
when absent), default factory (`vMissing` when absent), metadata and the
`repr` visibility flag. -/
structure Field where
  name : String := ""
  type : FType
  default : Value := Value.vMissing
  default_factory : Value := Value.vMissing
  metadata : Metadata := {}
  repr : Bool := true

/-- The resolved per-type configuration (`Meta` in the source), after the
merge with inherited defaults: `strict` defaults true, `frozen` false.
`noNesting` models presence of a `no_nesting` attribute; `title` models
`getattr(Meta, "title", ...)`. -/
structure MetaCfg where
  name : String := ""
  schema : String := ""
  description : String := ""
  strict : Bool := true
  frozen : Bool := false
  noNesting : Bool := false
  title : Option String := none

/-- The class-level shared state of a record type: its `modelName`, the
`__fields__` name list, and the ordered `__columns__` registry (which the
source aliases with `__dataclass_fields__`, so one list models both). -/
structure ClassState where
  modelName : String
  fields : List String
  columns : List (String × Field)

/-- A record instance: its class state (threaded explicitly because the
Python class object is mutated through the instance), its attribute
storage, and the `__valid__` flag (class default `False`). -/
structure Instance where
  cls : ClassState
  attrs : List (String × Value)
  valid : Bool := false

/-- `BaseModel.is_empty`: `MISSING`, `None`, or a value that stringifies to
the empty string (over this value universe only the empty string does). -/
def is_empty : Value → Bool
  | Value.vMissing => true
  | Value.vNone => true
  | Value.vStr s => s = ""
  | _ => false

/-- `BaseModel.is_callable`: only genuine function objects (function types,
builtins, partials) count, not arbitrary callables such as classes. -/
def is_callable : Value → Bool
  | Value.vCallable _ _ => true
  | _ => false

/-- Python's builtin `callable` predicate, used by the attribute
interceptor: function objects and type objects are callable. -/
def pyCallable : Value → Bool
  | Value.vCallable _ _ => true
  | Value.vType _ => true
  | _ => false

/-- Whether a value is a Python `list`. -/
def isListV : Value → Bool
  | Value.vList _ => true
  | _ => false

/-- Whether a value is a Python `dict`. -/
def isDictV : Value → Bool
  | Value.vDict _ => true
  | _ => false

/-- Whether a value is the `MISSING` sentinel
(`isinstance(v, _MISSING_TYPE)`). -/
def isMissingV : Value → Bool
  | Value.vMissing => true
  | _ => false

/-- Whether a value is Python `None`. -/
def isNoneV : Value → Bool
  | Value.vNone => true
  | _ => false

/-- Whether a value is a bare type object (`type(value) == type`). -/
def isVType : Value → Bool
  | Value.vType _ => true
  | _ => false

/-- Whether a value equals a given type object (`value == annotated_type`). -/
def eqTypeObj (v : Value) (t : FType) : Bool :=
  match v with
  | Value.vType u => u = t
  | _ => false

/-- Python's `type(value)` as an `FType`. -/
def typeOfValue : Value → FType
  | Value.vNone => .prim "NoneType"
  | Value.vMissing => .prim "_MISSING_TYPE"
  | Value.vBool _ => .prim "bool"
  | Value.vInt _ => .prim "int"
  | Value.vStr _ => .prim "str"
  | Value.vList _ => .prim "list"
  | Value.vDict _ => .prim "dict"
  | Value.vCallable _ _ => .prim "function"
  | Value.vRecord r _ => .record r
  | Value.vType _ => .prim "type"

/-- `dataclasses.is_dataclass` on a type object: record types only. -/
def isDataclassTy : FType → Bool
  | FType.record _ => true
  | _ => false

/-- Whether `_type.__module__ == "typing"`. -/
def isTyping : FType → Bool
  | FType.typingGen _ => true
  | FType.typingGen1 _ _ => true
  | _ => false

/-- `_type.__args__[0]` on a non-typing type: the first type parameter of a
builtin parameterized generic, `none` when accessing `__args__` raises
`AttributeError`. -/
def tyArg0 : FType → Option FType
  | FType.listOf e => some e
  | _ => none

/-- The class name of a record type (meaningful under `isDataclassTy`). -/
def recordName : FType → String
  | FType.record r => r
  | _ => ""

/-- The external collaborators of the engine, as the spec's interface
contracts: the type converter `parse_type`, the field-level `validator`,
zero-argument invocation of function objects (`call`, by function id) and
of type objects (`callType`), and the nested-record constructors
(keyword, positional, single-argument). -/
structure Env where
  parseType : FType → Value → Option String → Except Exc Value
  validator : Field → String → Value → FType → Option String
  call : Nat → Except Exc Value
  callType : FType → Except Exc Value
  constructKw : String → List (String × Value) → Except Exc Value
  constructPos : String → List Value → Except Exc Value
  constructOne : String → Value → Except Exc Value

/-- Zero-argument invocation of an arbitrary value: function objects and
type objects dispatch to the environment; calling anything else raises
`TypeError`, as in Python. -/
def call0 (env : Env) : Value → Except Exc Value
  | Value.vCallable fid _ => env.call fid
  | Value.vType t => env.callType t
  | _ => .error (.typeError (.raw "object is not callable"))

/-- Modelled from the spec: the field-descriptor constructor
(`datamodel/fields.py` is not under `src/`).  Section 4.5: "a new Field
Descriptor is synthesized (required=false, default=written value,
type=value's runtime type)"; the `required` argument of `Field(...)` is
recorded in the descriptor metadata, which is how the validation
orchestrator later reads it back. -/
def mkDynField (name : String) (value : Value) : Field :=
  { name := name
    type := typeOfValue value
    default := value
    metadata := { required := some false } }

/-- `_dc_method_setattr_` (`abstract.py`): the attribute interception
policy.  Frozen types reject writes to names outside `__fields__`; every
applied write stores `None` in place of a callable value; an unknown name
on a strict type is stored on the instance and the method merely returns;
an unknown name on a lenient type additionally registers a synthesized
field descriptor on the class and re-applies the write (the inner
`setattr` call is inlined here: after registration the name is in
`__fields__`, so it applies directly). -/
def _dc_method_setattr_ (meta : MetaCfg) (inst : Instance) (name : String)
    (value : Value) : Except Exc Instance :=
  if meta.frozen = true ∧ ¬ name ∈ inst.cls.fields then
    .error (.typeError (.frozenAttr name inst.cls.modelName))
  else
    let value := if pyCallable value then Value.vNone else value
    let inst1 : Instance := { inst with attrs := updList inst.attrs name value }
    if name ∈ inst1.cls.fields then .ok inst1
    else if meta.strict = true then .ok inst1
    else
      let f := mkDynField name value
      let cls2 : ClassState := { inst1.cls with
        columns := updList inst1.cls.columns name f
        fields := inst1.cls.fields ++ [name] }
      .ok { inst1 with cls := cls2, attrs := updList inst1.attrs name value }

/-- `getattr(self, name)`: attribute lookup, raising `AttributeError` when
the attribute is absent. -/
def getattrE (inst : Instance) (name : String) : Except Exc Value :=
  match lookupS inst.attrs name with
  | some v => .ok v
  | none => .error (.attributeError (.raw name))

/-- One element of the list comprehension in the list-of-dataclass branch
of `_calculate_value`:
`sub_type(**item) if isinstance(item, dict) else item`.
A mapping element is keyword-constructed into the element record type, a
non-mapping element passes through. -/
def coerceItem (env : Env) (r : String) : Value → Except Exc Value
  | Value.vDict m => env.constructKw r m
  | v => .ok v

/-- The whole comprehension, aborting on the first constructor exception. -/
def coerceItems (env : Env) (r : String) : List Value → Except Exc (List Value)
  | [] => .ok []
  | x :: xs =>
    match coerceItem env r x with
    | .error e => .error e
    | .ok y =>
      match coerceItems env r xs with
      | .error e => .error e
      | .ok ys => .ok (y :: ys)

/-- Control flow of the list-handling section of `_calculate_value`: either
the branch `return`ed, or execution falls through to the empty-value /
converter section (possibly after the `except AttributeError` handler
already stored the raw value). -/
inductive ListStep where
  | done (inst : Instance)
  | fall (inst : Instance)

/-- `BaseModel._calculate_value`: the per-field coercion step.

1. a genuine-callable raw value is skipped (left for `_validation`);
2. a record-typed field constructs/keeps the value depending on its shape
   (`no_nesting` passthrough, `None`, mapping→keyword construction,
   list→positional construction, primitive identity passthrough, otherwise
   single-argument construction);
3. a typing-module generic delegates wholly to `parse_type`, errors
   propagating unwrapped;
4. a list raw value whose field type exposes `__args__[0]` as a dataclass
   is rebuilt element-wise and the method returns; a missing `__args__`
   (`AttributeError`) stores the raw list and falls through, as does a
   non-dataclass type parameter;
5. an empty raw value stores the static default, or the default *factory
   object itself* when the default is the `MISSING` sentinel;
6. otherwise `parse_type` runs, `TypeError`/`ValueError` being re-raised
   as a `ValueError` interpolating the field name, the declared type and
   the original exception.

Every store goes through the intercepted `setattr`
(`_dc_method_setattr_`), which in particular stores `None` in place of
callable values. -/
def _calculate_value (env : Env) (meta : MetaCfg) (inst : Instance)
    (key : String) (value : Value) (f : Field) : Except Exc Instance :=
  let encoder := f.metadata.encoder
  if is_callable value then .ok inst
  else if isDataclassTy f.type then
    let built : Except Exc Value :=
      if meta.noNesting then .ok value
      else
        match value with
        | Value.vNone => .ok Value.vNone
        | Value.vDict m => env.constructKw (recordName f.type) m
        | Value.vList xs => env.constructPos (recordName f.type) xs
        | Value.vInt n => .ok (Value.vInt n)
        | Value.vBool b => .ok (Value.vBool b)
        | Value.vStr s => .ok (Value.vStr s)
        | v => env.constructOne (recordName f.type) v
    match built with
    | .ok new_val => _dc_method_setattr_ meta inst key new_val
    | .error e => .error e
  else if isTyping f.type then
    match env.parseType f.type value encoder with
    | .ok new_val => _dc_method_setattr_ meta inst key new_val
    | .error e => .error e
  else
    let step : Except Exc ListStep :=
      match value with
      | Value.vList xs =>
        match tyArg0 f.type with
        | none =>
          match _dc_method_setattr_ meta inst key (Value.vList xs) with
          | .ok i => .ok (ListStep.fall i)
          | .error e => .error e
        | some subTy =>
          if isDataclassTy subTy then
            match coerceItems env (recordName subTy) xs with
            | .ok items =>
              match _dc_method_setattr_ meta inst key (Value.vList items) with
              | .ok i => .ok (ListStep.done i)
              | .error e => .error e
            | .error (.attributeError _) =>
              match _dc_method_setattr_ meta inst key (Value.vList xs) with
              | .ok i => .ok (ListStep.fall i)
              | .error e => .error e
            | .error e => .error e
          else .ok (ListStep.fall inst)
      | _ => .ok (ListStep.fall inst)
    match step with
    | .error e => .error e
    | .ok (ListStep.done i) => .ok i
    | .ok (ListStep.fall inst2) =>
      if is_empty value then
        _dc_method_setattr_ meta inst2 key
          (if isMissingV f.default then f.default_factory else f.default)
      else
        match env.parseType f.type value encoder with
        | .ok new_val => _dc_method_setattr_ meta inst2 key new_val
        | .error (.typeError m) => .error (.valueError (.wrongType key f.type m))
        | .error (.valueError m) => .error (.valueError (.wrongType key f.type m))
        | .error e => .error e

/-- `BaseModel._validation`: the per-field validation step, returning the
possibly updated instance and the validator's optional error description.

* step 1: a genuine-callable stored value (outside the typing module) is
  invoked; on `TypeError` the field's own default is invoked instead, then
  `None`; the result is stored;
* step 2: a callable field default combined with a stored `None` is
  invoked (`AttributeError`/`RuntimeError` falling back to `None`), the
  result stored and rebound;
* classification: a bare type object (the `type(value)` taken before the
  two steps), a value equal to the declared type object, or an empty value
  triggers the structural checks — `primary` without `db_default` raises
  "missing primary key"; `required` under strict configuration returns
  early on `db_default` and raises "missing required field" otherwise;
  `nullable is False` under strict configuration raises "cannot null";
* otherwise the field-level validator is delegated to and its result
  returned. -/
def _validation (env : Env) (meta : MetaCfg) (inst : Instance)
    (name : String) (value : Value) (f : Field) :
    Except Exc (Instance × Option String) :=
  let annotated_type := f.type
  let step1 : Except Exc Instance :=
    match value with
    | Value.vCallable cid cmod =>
      if cmod ≠ "typing" then
        let called : Except Exc Value :=
          match env.call cid with
          | .ok v => .ok v
          | .error (.typeError _) =>
            match call0 env f.default with
            | .ok v => .ok v
            | .error (.typeError _) => .ok Value.vNone
            | .error e => .error e
          | .error e => .error e
        match called with
        | .ok new_val => _dc_method_setattr_ meta inst name new_val
        | .error e => .error e
      else .ok inst
    | _ => .ok inst
  match step1 with
  | .error e => .error e
  | .ok inst1 =>
    let step2 : Except Exc (Instance × Value) :=
      if is_callable f.default ∧ isNoneV value then
        let called : Except Exc Value :=
          match call0 env f.default with
          | .ok v => .ok v
          | .error (.attributeError _) => .ok Value.vNone
          | .error (.runtimeError _) => .ok Value.vNone
          | .error e => .error e
        match called with
        | .ok new_val =>
          match _dc_method_setattr_ meta inst1 name new_val with
          | .ok i => .ok (i, new_val)
          | .error e => .error e
        | .error e => .error e
      else .ok (inst1, value)
    match step2 with
    | .error e => .error e
    | .ok (inst2, value2) =>
      if isVType value ∨ eqTypeObj value2 annotated_type ∨ is_empty value2 then
        let primaryCheck : Except Exc Unit :=
          match f.metadata.primary with
          | some true =>
            if f.metadata.dbDefault then .ok ()
            else .error (.valueError (.missingPrimary inst2.cls.modelName name))
          | _ => .ok ()
        match primaryCheck with
        | .error e => .error e
        | .ok _ =>
          match f.metadata.required, meta.strict with
          | some true, true =>
            if f.metadata.dbDefault then .ok (inst2, none)
            else .error (.valueError (.missingRequired inst2.cls.modelName name))
          | _, _ =>
            match f.metadata.nullable, meta.strict with
            | some false, true =>
              .error (.valueError (.cannotNull inst2.cls.modelName name))
            | _, _ => .ok (inst2, none)
      else
        .ok (inst2, env.validator f name value2 annotated_type)

/-- The field loop of `BaseModel.__post_init__`: for each registered field,
re-read the stored value, run `_calculate_value`, then (inside the try
block that swallows `RuntimeError`) re-read and run `_validation`,
recording a truthy returned error description under the field name. -/
def postInitFields (env : Env) (meta : MetaCfg) :
    List (String × Field) → Instance → List (String × String) →
    Except Exc (Instance × List (String × String))
  | [], inst, errors => .ok (inst, errors)
  | (_, f) :: rest, inst, errors =>
    match getattrE inst f.name with
    | .error e => .error e
    | .ok value =>
      match _calculate_value env meta inst f.name value f with
      | .error e => .error e
      | .ok inst1 =>
        let tried : Except Exc (Instance × Option String) :=
          match getattrE inst1 f.name with
          | .error e => .error e
          | .ok value1 => _validation env meta inst1 f.name value1 f
        match tried with
        | .ok (inst2, err?) =>
          let errors1 :=
            match err? with
            | some e => if e ≠ "" then errors ++ [(f.name, e)] else errors
            | none => errors
          postInitFields env meta rest inst2 errors1
        | .error (.runtimeError _) => postInitFields env meta rest inst1 errors
        | .error e => .error e

/-- `BaseModel.__post_init__`: run coercion and validation over the
registry in order, then decide: a non-empty error mapping raises
`ValidationError` with the mapping as payload under strict configuration,
or is stored in `__errors__` with `__valid__ := False` under lenient
configuration (`__valid__` is written with `object.__setattr__`, the
`__errors__` assignment goes through the intercepted `setattr`); an empty
mapping sets `__valid__ := True`. -/
def __post_init__ (env : Env) (meta : MetaCfg) (inst : Instance) :
    Except Exc Instance :=
  match postInitFields env meta inst.cls.columns inst [] with
  | .error e => .error e
  | .ok (inst1, errors) =>
    if errors ≠ [] then
      if meta.strict = true then
        .error (.validationError (.modelErrors inst1.cls.modelName) errors)
      else
        match _dc_method_setattr_ meta inst1 "__errors__"
            (Value.vDict (errors.map (fun p => (p.1, Value.vStr p.2)))) with
        | .ok inst2 => .ok { inst2 with valid := false }
        | .error e => .error e
    else .ok { inst1 with valid := true }

/-- `BaseModel.add_field` (classmethod): refuses on a strict model, and
otherwise registers a synthesized descriptor in `__columns__` /
`__dataclass_fields__` — except for the name `__errors__`, which is
silently skipped.  (`__fields__` is not touched.) -/
def add_field (meta : MetaCfg) (cls : ClassState) (name : String)
    (value : Value) : Except Exc ClassState :=
  if meta.strict = true then .error (.typeError (.strictNewField name))
  else if name ≠ "__errors__" then
    .ok { cls with columns := updList cls.columns name (mkDynField name value) }
  else .ok cls

/-- `BaseModel.create_field`: like `add_field` but on the instance, also
assigning the value through the intercepted `setattr`. -/
def create_field (meta : MetaCfg) (inst : Instance) (name : String)
    (value : Value) : Except Exc Instance :=
  if meta.strict = true then .error (.typeError (.strictNewField name))
  else if name ≠ "__errors__" then
    let inst1 : Instance := { inst with cls := { inst.cls with
      columns := updList inst.cls.columns name (mkDynField name value) } }
    _dc_method_setattr_ meta inst1 name value
  else .ok inst

/-- `BaseModel.set`: delegates to `create_field` for unknown names on
lenient models (never for `__errors__`), silently ignores unknown names
otherwise, and assigns known names through the intercepted `setattr`. -/
def setMethod (meta : MetaCfg) (inst : Instance) (name : String)
    (value : Value) : Except Exc Instance :=
  match lookupS inst.cls.columns name with
  | none =>
    if name ≠ "__errors__" ∧ meta.strict = false then
      create_field meta inst name value
    else .ok inst
  | some _ => _dc_method_setattr_ meta inst name value

/-- `BaseModel.is_valid`. -/
def is_valid (inst : Instance) : Bool := inst.valid

/-- `BaseModel.get_errors`: reads the `__errors__` attribute, whose
class-level default is `None`. -/
def get_errors (inst : Instance) : Value :=
  (lookupS inst.attrs "__errors__").getD Value.vNone

/-- JSON-ish documents as produced by the schema introspector.  `jVal`
embeds a raw Python value (used for field defaults, which the source drops
into the document unconverted). -/
inductive JVal where
  | jNull
  | jBool (b : Bool)
  | jInt (n : Int)
  | jStr (s : String)
  | jArr (xs : List JVal)
  | jObj (entries : List (String × JVal))
  | jVal (v : Value)

/-- An optional string rendered into a JSON document (`None` → null). -/
def optJStr : Option String → JVal
  | some s => .jStr s
  | none => .jNull

/-- Python truthiness of a value. -/
def pyTruthy : Value → Bool
  | Value.vNone => false
  | Value.vBool b => b
  | Value.vInt n => n ≠ 0
  | Value.vStr s => s ≠ ""
  | Value.vList xs => ¬ xs.isEmpty
  | Value.vDict m => ¬ m.isEmpty
  | _ => true

/-- Python truthiness of a JSON value. -/
def jTruthy : JVal → Bool
  | .jNull => false
  | .jBool b => b
  | .jInt n => n ≠ 0
  | .jStr s => s ≠ ""
  | .jArr xs => ¬ xs.isEmpty
  | .jObj m => ¬ m.isEmpty
  | .jVal v => pyTruthy v

/-- `_type.__args__[0].__name__`: the `__name__` of a first type parameter,
`none` when the access raises (typing generics have no `__name__`). -/
def argName : FType → Option String
  | FType.prim n => some n
  | FType.record r => some r
  | FType.enumType e _ => some e
  | FType.listOf _ => some "list"
  | FType.typingGen _ => none
  | FType.typingGen1 _ _ => none

/-- Modelled from the spec: the `JSON_TYPES` mapping (`datamodel/types.py`
is not under `src/`).  Section 4.6: a "coarse type category (array,
object, string, integer, ...)" for leaf types; an absent entry means
`KeyError` (so the caller's fallback applies). -/
def JSON_TYPESg : FType → Option String
  | FType.prim "str" => some "string"
  | FType.prim "int" => some "integer"
  | FType.prim "bool" => some "boolean"
  | FType.prim "float" => some "number"
  | FType.prim "list" => some "array"
  | FType.prim "dict" => some "object"
  | _ => none

/-- `_get_type_info` (`base.py`): typing generics resolve via `_name`
(`List` → array, `Dict` → object) or their first parameter's `__name__`
with fallback "string"; everything else goes through `JSON_TYPES` with
fallback "string".  (The NewType/`__supertype__` branches concern types
outside this embedding's `FType` universe.) -/
def _get_type_info (_type : FType) : String :=
  if isTyping _type then
    match _type with
    | FType.typingGen gname =>
      if gname = some "List" then "array"
      else if gname = some "Dict" then "object"
      else "string"
    | FType.typingGen1 gname arg0 =>
      if gname = some "List" then "array"
      else if gname = some "Dict" then "object"
      else (argName arg0).getD "string"
    | _ => "string"
  else (JSON_TYPESg _type).getD "string"

/-- The external inputs of the schema introspector: `slugify_camelcase`
(from `datamodel/converters.py`, external to the core) and the nested
record types' own schema documents and identifiers (recursive classmethod
calls on other types). -/
structure SchemaEnv where
  slug : String → String
  nestedSchema : String → JVal
  nestedSchemaId : String → JVal

/-- `_get_ref_info` (`base.py`): enumerations render as an "array" with an
embedded value enumeration; record types render as an "object" with the
nested schema and a reference derived from the `fk` metadata (split on
`|`) or the nested schema's `$id`; anything else yields nothing. -/
def _get_ref_info (env : SchemaEnv) (_type : FType) (field : Field) :
    Option (List (String × JVal)) :=
  match _type with
  | FType.enumType _ vals =>
    some [("type", JVal.jStr "array"),
          ("enum_type", JVal.jObj
            [("type", JVal.jStr "string"),
             ("enum", JVal.jArr (vals.map JVal.jStr))])]
  | FType.record r =>
    some [("type", JVal.jStr "object"),
          ("enum_type", JVal.jNull),
          ("schema", env.nestedSchema r),
          ("ref", match field.metadata.fk with
                  | some fk => JVal.jArr ((fk.splitOn "|").map JVal.jStr)
                  | none => env.nestedSchemaId r)]
  | _ => none

/-- The per-field document of `BaseModel.schema`: type info, nullable,
label, the nested `attrs` dict (placeholder/format, plus pattern and the
visibility flag when present), readOnly/writeOnly, a truthy `$ref`, the
raw default, the secret flag when set, and min/max rendered as
`minLength`/`maxLength` for category "string" and `minimum`/`maximum`
otherwise (zero values being falsy are skipped, as in the source's
`if minimum:`). -/
def schemaField (env : SchemaEnv) (field : Field) : List (String × JVal) :=
  let _type := field.type
  let type_info := _get_type_info _type
  let ref_info := _get_ref_info env _type field
  let minimum := field.metadata.min
  let maximum := field.metadata.max
  let secret := field.metadata.secret
  let label := field.metadata.label
  let attrs0 : List (String × JVal) :=
    [("placeholder", optJStr field.metadata.description),
     ("format", optJStr field.metadata.format)]
  let attrs1 := match field.metadata.pattern with
    | some p => attrs0 ++ [("pattern", JVal.jStr p)]
    | none => attrs0
  let attrs2 :=
    if field.repr = false then attrs1 ++ [("visible", JVal.jBool false)]
    else attrs1
  let base0 : List (String × JVal) :=
    [("type", JVal.jStr type_info),
     ("nullable", JVal.jBool (field.metadata.nullable.getD false)),
     ("label", optJStr label),
     ("attrs", JVal.jObj attrs2),
     ("readOnly", JVal.jBool field.metadata.readonly),
     ("writeOnly", JVal.jBool false)]
  let refv : Option JVal :=
    match ref_info with
    | some ri => lookupS ri "ref"
    | none => none
  let base1 :=
    match refv with
    | some r => if jTruthy r then base0 ++ [("$ref", r)] else base0
    | none => base0
  let base2 := base1 ++ [("default", JVal.jVal field.default)]
  let base3 :=
    match secret with
    | some s => base2 ++ [("secret", JVal.jBool s)]
    | none => base2
  if type_info = "string" then
    let b4 := match minimum with
      | some m => if m ≠ 0 then base3 ++ [("minLength", JVal.jInt m)] else base3
      | none => base3
    match maximum with
    | some m => if m ≠ 0 then b4 ++ [("maxLength", JVal.jInt m)] else b4
    | none => b4
  else
    let b4 := match minimum with
      | some m => if m ≠ 0 then base3 ++ [("minimum", JVal.jInt m)] else base3
      | none => base3
    match maximum with
    | some m => if m ≠ 0 then b4 ++ [("maximum", JVal.jInt m)] else b4
    | none => b4

/-- `BaseModel.schema` (the `as_dict=True` document; textual encoding is
the external document encoder's job).  The title is the slugified `Meta`
title or class name, the table the lowercased `Meta.name` or title, the
description `Meta.description` or the docstring; `additionalProperties`
is set to `Meta.strict` itself; `required` collects fields whose metadata
marks `required`.  `$defs` stays empty in the source and is therefore
never attached. -/
def schemaMethod (env : SchemaEnv) (meta : MetaCfg) (clsName : String)
    (docstr : String) (cls : ClassState) : List (String × JVal) :=
  let title := env.slug (meta.title.getD clsName)
  let schema := meta.schema
  let table := if meta.name ≠ "" then meta.name.toLower else title.toLower
  let columns := cls.columns
  let description := if meta.description ≠ "" then meta.description else docstr.trim
  let required := columns.filterMap (fun p =>
    if p.2.metadata.required.getD false then some p.1 else none)
  let fields := columns.map (fun p => (p.1, JVal.jObj (schemaField env p.2)))
  [("$schema", JVal.jStr "https://json-schema.org/draft/2020-12/schema"),
   ("$id", JVal.jStr ("/schemas/" ++ table)),
   ("additionalProperties", JVal.jBool meta.strict),
   ("title", JVal.jStr title),
   ("description", JVal.jStr description),
   ("type", JVal.jStr "object"),
   ("table", JVal.jStr table),
   ("schema", JVal.jStr schema),
   ("properties", JVal.jObj fields),
   ("required", JVal.jArr (required.map JVal.jStr))]

/-- The per-field type tag of `BaseModel.model`: like `_get_type_info` but
with fallback "object" everywhere. -/
def modelJsonType (t : FType) : String :=
  if isTyping t then
    match t with
    | FType.typingGen gname =>
      if gname = some "List" then "array"
      else if gname = some "Dict" then "object"
      else "object"
    | FType.typingGen1 gname arg0 =>
      if gname = some "List" then "array"
      else if gname = some "Dict" then "object"
      else (argName arg0).getD "object"
    | _ => "object"
  else (JSON_TYPESg t).getD "object"

/-- `BaseModel.model`: initialises `result = None`, renders the document
only for the dialect "json" (the textual encoding being the external
encoder's `dumps`), and returns `result`; any other dialect therefore
yields `None`. -/
def modelMethod (meta : MetaCfg) (clsname : String) (docstr : String)
    (cls : ClassState) (dialect : String) : Option (List (String × JVal)) :=
  let schema := meta.schema
  let table := if meta.name ≠ "" then meta.name else clsname.toLower
  let columns := cls.columns
  if dialect = "json" then
    let cols := columns.map (fun p =>
      (p.2.name, JVal.jObj
        [("name", JVal.jStr p.2.name),
         ("type", JVal.jStr (modelJsonType p.2.type))]))
    some [("$schema", JVal.jStr "https://json-schema.org/draft/2020-12/schema"),
          ("$id", JVal.jStr ("/schemas/" ++ table)),
          ("name", JVal.jStr clsname),
          ("description", JVal.jStr docstr.trim),
          ("additionalProperties", JVal.jBool false),
          ("table", JVal.jStr table),
          ("schema", JVal.jStr schema),
          ("type", JVal.jStr "object"),
          ("properties", JVal.jObj cols)]
  else none

/-!
## Concrete fixtures

A canonical environment for closed evaluations: the converter is the
identity, the validator accepts everything, calls raise `TypeError`, and
nested constructors succeed structurally.
-/

/-- A canonical concrete environment for closed evaluations. -/
def env0 : Env :=
  { parseType := fun _ v _ => .ok v
    validator := fun _ _ _ _ => none
    call := fun _ => .error (.typeError (.raw "call"))
    callType := fun _ => .error (.typeError (.raw "typecall"))
    constructKw := fun r m => .ok (Value.vRecord r m)
    constructPos := fun r _ => .ok (Value.vRecord r [])
    constructOne := fun r v => .ok (Value.vRecord r [("value", v)]) }

/-- A required string field named "name" with static default `None`. -/
def fieldC1 : Field :=
  { name := "name", type := .prim "str", default := Value.vNone
    metadata := { required := some true } }

/-- A `Person` record type with the single required field "name". -/
def clsC1 : ClassState :=
  { modelName := "Person", fields := ["name"], columns := [("name", fieldC1)] }

/-- A `Person` instance constructed with "name" missing (stored `None`). -/
def instC1 : Instance := { cls := clsC1, attrs := [(("name" : String), Value.vNone)] }

/-- C1 counterexample: on the strict `Person` type with its required field
"name" missing, construction fails with a plain `ValueError` naming the
field in its message — not with a validation error carrying a payload
mapping: the structural required-field check in `_validation` raises
before `__post_init__` ever aggregates an error mapping. -/
theorem C1_counterexample :
    __post_init__ env0 { strict := true } instC1
        = .error (.valueError (.missingRequired "Person" "name"))
    ∧ ∀ (m : ErrMsg) (payload : List (String × String)),
        __post_init__ env0 { strict := true } instC1
          ≠ .error (.validationError m payload) := by
  refine ⟨rfl, ?_⟩
  intro m payload h
  rw [show __post_init__ env0 { strict := true } instC1
        = .error (.valueError (.missingRequired "Person" "name")) from rfl] at h
  simp at h

/-- C1 (amended): for every record type with `strict = true`, constructing
with a `None` value for a field whose metadata has `required = true` and
no `db_default` escape fails construction — by raising a `ValueError`
whose message interpolates the model name and that field's name (the
aggregated validation-error payload is not used for this failure). -/
theorem C1_strict_required_fails_with_value_error
    (env : Env) (mn fn tn : String) (fr : Bool) :
    __post_init__ env { strict := true, frozen := fr }
      { cls := { modelName := mn, fields := [fn]
                 columns := [(fn, { name := fn, type := .prim tn
                                    default := Value.vNone
                                    metadata := { required := some true } })] }
        attrs := [(fn, Value.vNone)] }
      = .error (.valueError (.missingRequired mn fn)) := by
  simp [__post_init__, postInitFields, getattrE, lookupS, _calculate_value,
        _validation, _dc_method_setattr_, is_callable, isDataclassTy, isTyping,
        tyArg0, is_empty, isMissingV, pyCallable, updList, isVType, eqTypeObj,
        isNoneV, call0]

/-- C2 counterexample: on the lenient (`strict = false`) `Person` type with
its required field "name" missing, construction succeeds with
`is_valid() = true` and `get_errors()` still `None` — the required-field
check of `_validation` only runs when `Meta.strict` is true, so nothing is
recorded. -/
theorem C2_counterexample :
    (__post_init__ env0 { strict := false } instC1).map is_valid = .ok true
    ∧ (__post_init__ env0 { strict := false } instC1).map get_errors
        = .ok Value.vNone := ⟨rfl, rfl⟩

/-- C2 (amended): for every record type with `strict = false`, constructing
with a `None` value for a field whose metadata has `required = true` (and
no other failing metadata) succeeds and yields an instance with
`is_valid() = true` and `get_errors() = None`: the required-field check is
guarded by `Meta.strict is True`, so lenient configurations skip it
entirely and the error mapping stays empty. -/
theorem C2_lenient_required_is_silently_valid
    (env : Env) (mn fn tn : String) (fr : Bool) :
    (__post_init__ env { strict := false, frozen := fr }
      { cls := { modelName := mn, fields := [fn]
                 columns := [(fn, { name := fn, type := .prim tn
                                    default := Value.vNone
                                    metadata := { required := some true } })] }
        attrs := [(fn, Value.vNone)] }).map (fun i => (is_valid i, get_errors i))
      = .ok (true, Value.vNone) := by
  simp [__post_init__, postInitFields, getattrE, lookupS, _calculate_value,
        _validation, _dc_method_setattr_, is_callable, isDataclassTy, isTyping,
        tyArg0, is_empty, isMissingV, pyCallable, updList, isVType, eqTypeObj,
        isNoneV, call0, is_valid, get_errors, Except.map]
  split <;> rfl

/-- An integer field named "a" with static default `0`. -/
def fieldA : Field := { name := "a", type := .prim "int", default := Value.vInt 0 }

/-- A record type `Frozen1` with the single field "a". -/
def clsC3 : ClassState :=
  { modelName := "Frozen1", fields := ["a"], columns := [("a", fieldA)] }

/-- A constructed `Frozen1` instance. -/
def instC3 : Instance := { cls := clsC3, attrs := [(("a" : String), Value.vInt 0)] }

/-- C3 counterexample: on a type with `frozen = true`, writing to the
*registered* field "a" after construction does not fail — the interceptor
applies the write, because its frozen check only fires for names outside
`__fields__`. -/
theorem C3_counterexample :
    _dc_method_setattr_ { frozen := true } instC3 "a" (Value.vInt 1)
      = .ok { instC3 with attrs := [(("a" : String), Value.vInt 1)] } := rfl

/-- C3 (amended): on a type with `frozen = true`, writing an *unknown*
attribute fails with the frozen-record `TypeError` naming the attribute
and the model, while writing a *registered* field name is applied to the
instance (callable values stored as `None`), leaving the registry
unchanged. -/
theorem C3_frozen_write_policy
    (meta : MetaCfg) (inst : Instance) (name : String) (value : Value)
    (hfr : meta.frozen = true) :
    (name ∉ inst.cls.fields →
      _dc_method_setattr_ meta inst name value
        = .error (.typeError (.frozenAttr name inst.cls.modelName)))
    ∧ (name ∈ inst.cls.fields →
      _dc_method_setattr_ meta inst name value
        = .ok { inst with attrs := (updList inst.attrs name
                  (if pyCallable value then Value.vNone else value)) }) := by
  constructor
  · intro h; simp [_dc_method_setattr_, hfr, h]
  · intro h; simp [_dc_method_setattr_, hfr, h]

/-- C3 witness: both arms of `C3_frozen_write_policy` at concrete inputs on
the frozen `Frozen1` type. -/
theorem C3_frozen_write_policy_witness :
    _dc_method_setattr_ { frozen := true } instC3 "b" (Value.vInt 1)
        = .error (.typeError (.frozenAttr "b" "Frozen1"))
    ∧ _dc_method_setattr_ { frozen := true } instC3 "a" (Value.vInt 1)
        = .ok { instC3 with attrs := [(("a" : String), Value.vInt 1)] } := by
  have h1 := (C3_frozen_write_policy { frozen := true } instC3 "b"
      (Value.vInt 1) rfl).1 (by decide)
  have h2 := (C3_frozen_write_policy { frozen := true } instC3 "a"
      (Value.vInt 1) rfl).2 (by decide)
  exact ⟨h1, h2⟩

/-- C4 counterexample: on a non-frozen strict type, writing the unknown
attribute "extra" raises nothing: the interceptor stores the value on the
instance (the registry untouched) and merely returns. -/
theorem C4_counterexample :
    _dc_method_setattr_ { strict := true, frozen := false } instC3 "extra"
        (Value.vInt 5)
      = .ok { instC3 with
              attrs := [(("a" : String), Value.vInt 0),
                        (("extra" : String), Value.vInt 5)] } := rfl

/-- C4 (amended): on a non-frozen type with `strict = true`, writing an
unknown attribute name through the interceptor is applied to the instance
storage without any error and without registering a field; the `set`
method silently ignores unknown names on strict models (no write, no
error). -/
theorem C4_strict_unknown_write_applied
    (meta : MetaCfg) (inst : Instance) (name : String) (value : Value)
    (hfr : meta.frozen = false) (hst : meta.strict = true)
    (hname : name ∉ inst.cls.fields) :
    _dc_method_setattr_ meta inst name value
      = .ok { inst with attrs := (updList inst.attrs name
                (if pyCallable value then Value.vNone else value)) }
    ∧ (lookupS inst.cls.columns name = none →
        setMethod meta inst name value = .ok inst) := by
  constructor
  · simp [_dc_method_setattr_, hfr, hst, hname]
  · intro h; simp [setMethod, h, hst]

/-- C4 witness: the unknown name "extra" on the strict non-frozen
`Frozen1`-shaped type: the raw write is applied silently, `set` is a
silent no-op. -/
theorem C4_strict_unknown_write_applied_witness :
    _dc_method_setattr_ { strict := true, frozen := false } instC3 "extra"
        (Value.vInt 5)
      = .ok { instC3 with
              attrs := [(("a" : String), Value.vInt 0),
                        (("extra" : String), Value.vInt 5)] }
    ∧ setMethod { strict := true, frozen := false } instC3 "extra"
        (Value.vInt 5) = .ok instC3 := by
  have h := C4_strict_unknown_write_applied { strict := true, frozen := false }
      instC3 "extra" (Value.vInt 5) rfl rfl (by decide)
  exact ⟨h.1, h.2 rfl⟩

/-- A field whose static default is `MISSING` and whose default factory is
the function object number 0. -/
def fieldC5 : Field :=
  { name := "k", type := .prim "int", default := Value.vMissing
    default_factory := Value.vCallable 0 "builtins" }

/-- A record type `M5` with the single field "k". -/
def clsC5 : ClassState :=
  { modelName := "M5", fields := ["k"], columns := [("k", fieldC5)] }

/-- An `M5` instance whose "k" was constructed with `None`. -/
def instC5 : Instance := { cls := clsC5, attrs := [(("k" : String), Value.vNone)] }

/-- An environment whose function objects return `42` when invoked. -/
def envC5 : Env := { env0 with call := fun _ => .ok (Value.vInt 42) }

/-- C5 counterexample: with an empty raw value and a `MISSING` static
default, the coercion step stores `None` — the default factory is a
callable, so the intercepted `setattr` nulls it, and it is never invoked
(invoking it would yield `42`). -/
theorem C5_counterexample :
    _calculate_value envC5 {} instC5 "k" Value.vNone fieldC5
        = .ok { instC5 with attrs := [(("k" : String), Value.vNone)] }
    ∧ envC5.call 0 = .ok (Value.vInt 42)
    ∧ Value.vNone ≠ Value.vInt 42 :=
  ⟨rfl, rfl, fun h => Value.noConfusion h⟩

/-- C5 (amended): during coercion, an empty raw value for a field whose
type is neither a record type nor a typing generic stores the field's
default factory *object* when the static default is the `MISSING`
sentinel, and the static default otherwise — in both cases filtered
through the attribute interceptor, which replaces callable values with
`None`.  The factory is not invoked at this stage (that happens later, in
`_validation`). -/
theorem C5_empty_default_stores_uninvoked
    (env : Env) (meta : MetaCfg) (inst : Instance) (key : String)
    (value : Value) (f : Field)
    (h1 : isDataclassTy f.type = false) (h2 : isTyping f.type = false)
    (h3 : isListV value = false) (h4 : is_empty value = true)
    (h5 : is_callable value = false) (h6 : key ∈ inst.cls.fields) :
    _calculate_value env meta inst key value f
      = .ok { inst with attrs := (updList inst.attrs key
          (let d := if isMissingV f.default then f.default_factory else f.default
           if pyCallable d then Value.vNone else d)) } := by
  cases value <;>
    simp_all [_calculate_value, is_callable, isListV, is_empty,
              _dc_method_setattr_, h1, h2, h6]

/-- C5 witness: `C5_empty_default_stores_uninvoked` at the concrete `M5`
fixture — the callable factory is stored as `None`. -/
theorem C5_empty_default_stores_uninvoked_witness :
    _calculate_value envC5 {} instC5 "k" Value.vNone fieldC5
      = .ok { instC5 with attrs := [(("k" : String), Value.vNone)] } := by
  have h := C5_empty_default_stores_uninvoked envC5 {} instC5 "k" Value.vNone
      fieldC5 rfl rfl rfl rfl rfl (by decide)
  exact h

/-- An environment whose type converter always raises `TypeError "boom"`. -/
def envC6 : Env :=
  { env0 with parseType := fun _ _ _ => .error (.typeError (.raw "boom")) }

/-- A field declared with the typing generic `Optional` (no usable
`__args__`). -/
def fieldC6 : Field :=
  { name := "k", type := .typingGen (some "Optional"), default := Value.vNone }

/-- A record type `M6` with the single typing-typed field "k". -/
def clsC6 : ClassState :=
  { modelName := "M6", fields := ["k"], columns := [("k", fieldC6)] }

/-- An `M6` instance whose "k" holds the raw string "x". -/
def instC6 : Instance := { cls := clsC6, attrs := [(("k" : String), Value.vStr "x")] }

/-- C6 counterexample: for a field whose declared type is a typing-module
generic, a `TypeError` raised by `parse_type` propagates *unwrapped* out
of construction — the error is the converter's own, carrying neither the
field name nor the declared type (the wrapped form would be a
`ValueError` with a `wrongType` message). -/
theorem C6_counterexample :
    __post_init__ envC6 {} instC6 = .error (.typeError (.raw "boom"))
    ∧ ∀ (m : ErrMsg),
        Exc.typeError (.raw "boom")
          ≠ Exc.valueError (.wrongType "k" (.typingGen (some "Optional")) m) := by
  refine ⟨rfl, ?_⟩
  intro m h
  simp at h

/-- C6 (amended): for a field whose declared type is *not* a typing-module
generic (and not a record type), a `TypeError` or `ValueError` raised by
`parse_type` on a non-empty, non-callable, non-list raw value aborts
construction — in every configuration, strict or lenient — with a
`ValueError` whose message interpolates the field name, the declared type
and the original error.  (For typing-module generics the converter's
error propagates unwrapped, see the counterexample.) -/
theorem C6_converter_error_wrapped_for_leaf_types
    (env : Env) (meta : MetaCfg) (mn : String) (f : Field) (value : Value)
    (e : Exc) (m : ErrMsg)
    (h1 : isDataclassTy f.type = false) (h2 : isTyping f.type = false)
    (h3 : isListV value = false) (h4 : is_empty value = false)
    (h5 : is_callable value = false)
    (h6 : env.parseType f.type value f.metadata.encoder = .error e)
    (h7 : e = .typeError m ∨ e = .valueError m) :
    __post_init__ env meta
      { cls := { modelName := mn, fields := [f.name], columns := [(f.name, f)] }
        attrs := [(f.name, value)] }
      = .error (.valueError (.wrongType f.name f.type m)) := by
  rcases h7 with rfl | rfl <;>
    cases value <;>
      simp_all [__post_init__, postInitFields, getattrE, lookupS,
                _calculate_value, is_callable, isListV, is_empty]

/-- C6 witness: `C6_converter_error_wrapped_for_leaf_types` at a concrete
lenient model with an `int`-typed field and a converter that raises. -/
theorem C6_converter_error_wrapped_for_leaf_types_witness :
    __post_init__
        { env0 with parseType := fun _ _ _ => .error (.typeError (.raw "bad")) }
        { strict := false }
        { cls := { modelName := "M6b", fields := ["q"]
                   columns := [("q", { name := "q", type := .prim "int"
                                       default := Value.vNone })] }
          attrs := [(("q" : String), Value.vStr "x")] }
      = .error (.valueError (.wrongType "q" (.prim "int") (.raw "bad"))) := by
  have h := C6_converter_error_wrapped_for_leaf_types
      { env0 with parseType := fun _ _ _ => .error (.typeError (.raw "bad")) }
      { strict := false } "M6b"
      { name := "q", type := .prim "int", default := Value.vNone }
      (Value.vStr "x") (.typeError (.raw "bad")) (.raw "bad")
      rfl rfl rfl rfl rfl rfl (Or.inl rfl)
  exact h

/-- Specification of the element-wise comprehension `coerceItems`: on
success the output list has the input's length, and position-wise every
mapping element was replaced by its (successful) keyword construction
while every non-mapping element passed through unchanged. -/
theorem coerceItems_spec (env : Env) (r : String) (xs : List Value) :
    ∀ items : List Value, coerceItems env r xs = .ok items →
      items.length = xs.length ∧
      ∀ i (hi : i < xs.length) (hj : i < items.length),
        (∀ m, xs.get ⟨i, hi⟩ = Value.vDict m →
            env.constructKw r m = .ok (items.get ⟨i, hj⟩)) ∧
        (isDictV (xs.get ⟨i, hi⟩) = false →
            items.get ⟨i, hj⟩ = xs.get ⟨i, hi⟩) := by
  induction xs with
  | nil =>
    intro items h
    simp [coerceItems] at h
    subst h
    exact ⟨rfl, fun i hi => absurd hi (by simp)⟩
  | cons x xs ih =>
    intro items h
    rw [coerceItems] at h
    rcases hx : coerceItem env r x with e | y
    · rw [hx] at h; cases h
    · rw [hx] at h
      rcases hrest : coerceItems env r xs with e | ys
      · rw [hrest] at h; cases h
      · rw [hrest] at h
        cases h
        obtain ⟨hlen, hspec⟩ := ih ys hrest
        refine ⟨by simp [hlen], ?_⟩
        intro i hi hj
        cases i with
        | zero =>
          constructor
          · intro m hm
            simp only [List.get] at hm ⊢
            rw [hm] at hx
            exact hx
          · intro hnd
            simp only [List.get] at hnd ⊢
            cases x <;> simp_all [isDictV, coerceItem]
        | succ i =>
          have hi' : i < xs.length := by simpa using hi
          have hj' : i < ys.length := by simpa using hj
          exact hspec i hi' hj'

/-- A field declared as the builtin parameterized `list[R]` where `R` is a
record type. -/
def fieldC7 : Field :=
  { name := "items", type := .listOf (.record "R"), default := Value.vNone }

/-- A record type `M7` with the single list-of-record field "items". -/
def clsC7 : ClassState :=
  { modelName := "M7", fields := ["items"], columns := [("items", fieldC7)] }

/-- An `M7` instance before coercion. -/
def instC7 : Instance :=
  { cls := clsC7, attrs := [(("items" : String), Value.vNone)] }

/-- C7: for a field declared `list[R]` with `R` a record type and a raw
list value whose mapping elements all construct successfully, the coercion
step stores the element-wise rebuilt list: same length, every mapping
element replaced by its keyword-constructed `R` instance, every
non-mapping element passed through unchanged, order preserved. -/
theorem C7_list_of_record_coercion
    (env : Env) (meta : MetaCfg) (inst : Instance) (key : String) (f : Field)
    (R : String) (xs items : List Value)
    (hty : f.type = .listOf (.record R))
    (hkey : key ∈ inst.cls.fields)
    (hitems : coerceItems env R xs = .ok items) :
    _calculate_value env meta inst key (Value.vList xs) f
      = .ok { inst with attrs := updList inst.attrs key (Value.vList items) }
    ∧ items.length = xs.length
    ∧ ∀ i (hi : i < xs.length) (hj : i < items.length),
        (∀ m, xs.get ⟨i, hi⟩ = Value.vDict m →
            env.constructKw R m = .ok (items.get ⟨i, hj⟩)) ∧
        (isDictV (xs.get ⟨i, hi⟩) = false →
            items.get ⟨i, hj⟩ = xs.get ⟨i, hi⟩) := by
  obtain ⟨hlen, hspec⟩ := coerceItems_spec env R xs items hitems
  refine ⟨?_, hlen, hspec⟩
  simp [_calculate_value, hty, is_callable, isDataclassTy, isTyping, tyArg0,
        recordName, hitems, _dc_method_setattr_, pyCallable, hkey]

/-- C7 witness: a two-element raw list (one mapping, one integer) for the
`list[R]`-typed field of `M7`: the mapping becomes an `R` instance, the
integer passes through, order preserved. -/
theorem C7_list_of_record_coercion_witness :
    _calculate_value env0 {} instC7 "items"
        (Value.vList [Value.vDict [("a", Value.vInt 1)], Value.vInt 7]) fieldC7
      = .ok { instC7 with
              attrs := [(("items" : String),
                Value.vList [Value.vRecord "R" [("a", Value.vInt 1)],
                             Value.vInt 7])] } := by
  have h := C7_list_of_record_coercion env0 {} instC7 "items" fieldC7 "R"
      [Value.vDict [("a", Value.vInt 1)], Value.vInt 7]
      [Value.vRecord "R" [("a", Value.vInt 1)], Value.vInt 7]
      rfl (by decide) rfl
  exact h.1

/-- A concrete schema environment: identity slug, trivial nested schema. -/
def senv0 : SchemaEnv :=
  { slug := fun s => s
    nestedSchema := fun _ => JVal.jNull
    nestedSchemaId := fun r => JVal.jStr ("/schemas/" ++ r) }

/-- C8: evaluation of the schema introspector at the failing input.  The
source sets `"additionalProperties": cls.Meta.strict`, so a *strict* type
renders `additionalProperties = true` — in JSON Schema terms, additional
properties *allowed* — the exact opposite of the claimed (and intended)
"additional properties not allowed"; generally, the emitted flag always
equals the strict flag instead of its negation. -/
theorem C8_additionalProperties_equals_strict :
    lookupS (schemaMethod senv0 { strict := true } "M8" "docs" clsC1)
        "additionalProperties"
      = some (JVal.jBool true)
    ∧ ∀ b : Bool,
        lookupS (schemaMethod senv0 { strict := b } "M8" "docs" clsC1)
            "additionalProperties"
          = some (JVal.jBool b) := by
  refine ⟨rfl, ?_⟩
  intro b
  rfl

/-- C9 counterexample: `add_field` on a *strict* model raises the
strict-model `TypeError` even for the name `__errors__` — the strictness
check precedes the name check, so the skip is not silent there. -/
theorem C9_counterexample :
    add_field { strict := true } clsC1 "__errors__" (Value.vInt 0)
      = .error (.typeError (.strictNewField "__errors__")) := rfl

/-- C9 (amended): none of `add_field`, `create_field`, `set` ever registers
a field named `__errors__`, and the registry is always left unchanged; the
skip is silent on non-strict models, while on strict models `add_field`
and `create_field` raise the strict-model `TypeError` (as they do for any
name) and `set` silently ignores the unknown name. -/
theorem C9_errors_field_never_registered
    (meta : MetaCfg) (cls : ClassState) (inst : Instance) (value : Value) :
    (meta.strict = false →
        add_field meta cls "__errors__" value = .ok cls
      ∧ create_field meta inst "__errors__" value = .ok inst)
    ∧ (meta.strict = true →
        add_field meta cls "__errors__" value
            = .error (.typeError (.strictNewField "__errors__"))
      ∧ create_field meta inst "__errors__" value
            = .error (.typeError (.strictNewField "__errors__")))
    ∧ (lookupS inst.cls.columns "__errors__" = none →
        setMethod meta inst "__errors__" value = .ok inst) := by
  refine ⟨?_, ?_, ?_⟩
  · intro h
    exact ⟨by simp [add_field, h], by simp [create_field, h]⟩
  · intro h
    exact ⟨by simp [add_field, h], by simp [create_field, h]⟩
  · intro h
    simp [setMethod, h]

/-- C9 witness: the three arms of `C9_errors_field_never_registered` at
concrete lenient and strict configurations. -/
theorem C9_errors_field_never_registered_witness :
    add_field { strict := false } clsC1 "__errors__" (Value.vInt 1) = .ok clsC1
    ∧ add_field { strict := true } clsC1 "__errors__" (Value.vInt 1)
        = .error (.typeError (.strictNewField "__errors__"))
    ∧ setMethod { strict := true } instC1 "__errors__" (Value.vInt 1)
        = .ok instC1 := by
  refine ⟨((C9_errors_field_never_registered { strict := false } clsC1 instC1
      (Value.vInt 1)).1 rfl).1, ?_, ?_⟩
  · exact ((C9_errors_field_never_registered { strict := true } clsC1 instC1
      (Value.vInt 1)).2.1 rfl).1
  · exact (C9_errors_field_never_registered { strict := true } clsC1 instC1
      (Value.vInt 1)).2.2 rfl

/-- C10: `BaseModel.model` initialises its result to `None` and only the
"json" dialect branch ever replaces it, so any other dialect returns
`None` — no rendered document and no error. -/
theorem C10_model_non_json_dialect
    (meta : MetaCfg) (clsname docstr dialect : String) (cls : ClassState)
    (h : dialect ≠ "json") :
    modelMethod meta clsname docstr cls dialect = none := by
  simp [modelMethod, h]

/-- C10 witness: the "sql" dialect on the `Person` type yields `None`. -/
theorem C10_model_non_json_dialect_witness :
    modelMethod { strict := true } "Person" "doc" clsC1 "sql" = none :=
  C10_model_non_json_dialect { strict := true } "Person" "doc" "sql" clsC1
    (by decide)

end DataModel
